import Mathlib

/-!
Shallow embedding of the BlueLedger geo-tagged media ingestion pipeline:
the POST /upload/multiple/image handler of src/backend/src/index.ts
together with the Post schema of src/backend/src/model.ts.

JavaScript runtime values are modelled by `JSValue`; JavaScript numbers by
`JSNum`. A finite JavaScript number is modelled as an exact decimal
`mantissa * 10 ^ exponent` in canonical form (mantissa zero or not
divisible by ten), so that value-equal results of the modelled `Number`
coercion are structurally equal; double rounding and overflow of huge
literals to Infinity are not modelled, which is faithful on the small
literals the pipeline handles, and the handler performs no arithmetic on
the numbers beyond coercion and the NaN check. The builtin `JSON.parse`
is not repository code, so it enters the model as an explicit argument
`parse : String → Option JSValue` of the handler (`none` models a parse
that throws a SyntaxError).
-/

/-- A JavaScript number: an exact decimal `m * 10 ^ e` (kept canonical by
`mkFinite`), NaN, or an infinity. -/
inductive JSNum where
  | finite (m : ℤ) (e : ℤ)
  | nan
  | inf
  | neginf
deriving DecidableEq, Repr

/-- Strips up to `fuel` trailing factors of ten from `m` into the
exponent. -/
def stripTens : Nat → Nat → ℤ → Nat × ℤ
  | 0, m, e => (m, e)
  | f + 1, m, e =>
    if m ≠ 0 && m % 10 = 0 then stripTens f (m / 10) (e + 1) else (m, e)

/-- Canonical finite decimal: zero is `finite 0 0`, otherwise the mantissa
carries no trailing zeros, so equal values have equal representations. -/
def mkFinite (m : ℤ) (e : ℤ) : JSNum :=
  if m = 0 then .finite 0 0
  else
    let p := stripTens m.natAbs m.natAbs e
    .finite (if m < 0 then -(p.1 : ℤ) else (p.1 : ℤ)) p.2

/-- Models `Number.isNaN`: true exactly on NaN (infinities pass). -/
def JSNum.isNaN : JSNum → Bool
  | .nan => true
  | _ => false

/-- A JavaScript runtime value as it can occur in the handler body:
the JSON universe plus `undefined` (the result of a missing property
or out-of-range index access). -/
inductive JSValue where
  | null
  | undefined
  | bool (b : Bool)
  | num (x : JSNum)
  | str (s : String)
  | arr (vs : List JSValue)
  | obj (fields : List (String × JSValue))
deriving Repr

/-- The whitespace characters ECMAScript ToNumber trims from a string
(ASCII whitespace and no-break space; the remaining Unicode space
characters are omitted). -/
def isJsWhite (c : Char) : Bool :=
  c = ' ' || c = '\t' || c = '\n' || c = '\r' || c = '\x0b' || c = '\x0c' || c = '\xa0'

/-- Trims leading and trailing ToNumber whitespace. -/
def charTrim (cs : List Char) : List Char :=
  ((cs.dropWhile isJsWhite).reverse.dropWhile isJsWhite).reverse

/-- Decimal digit accumulator for numeric string parsing. -/
def digitsVal (cs : List Char) : Nat :=
  cs.foldl (fun a c => a * 10 + (c.toNat - '0'.toNat)) 0

/-- Nonempty all-digit check. -/
def isDigitSeq (cs : List Char) : Bool :=
  !cs.isEmpty && cs.all Char.isDigit

/-- Hexadecimal digit value, if the character is one. -/
def hexDigitVal (c : Char) : Option Nat :=
  if c.isDigit then some (c.toNat - '0'.toNat)
  else if ['a', 'b', 'c', 'd', 'e', 'f'].contains c then some (c.toNat - 'a'.toNat + 10)
  else if ['A', 'B', 'C', 'D', 'E', 'F'].contains c then some (c.toNat - 'A'.toNat + 10)
  else none

/-- Value of a nonempty digit sequence in base `b`, if every character is a
digit of that base. -/
def baseVal (b : Nat) (cs : List Char) : Option Nat :=
  if cs.isEmpty then none
  else cs.foldl (fun acc c =>
    match acc, hexDigitVal c with
    | some a, some d => if d < b then some (a * b + d) else none
    | _, _ => none) (some 0)

/-- Parses an ECMAScript exponent suffix (`e`/`E`, optional sign, digits);
the empty list means no exponent and yields 0; anything else fails. -/
def parseExpSuffix (cs : List Char) : Option ℤ :=
  match cs with
  | [] => some 0
  | 'e' :: rest | 'E' :: rest =>
    match rest with
    | '+' :: ds => if isDigitSeq ds then some (digitsVal ds : ℤ) else none
    | '-' :: ds => if isDigitSeq ds then some (-(digitsVal ds : ℤ)) else none
    | ds => if isDigitSeq ds then some (digitsVal ds : ℤ) else none
  | _ => none

/-- Parses an unsigned ECMAScript StrUnsignedDecimalLiteral without the
`Infinity` alternative: digits, optional decimal point and fraction
digits, optional exponent; the whole list must be consumed. The result is
mantissa and decimal exponent. -/
def parseUnsignedDecimal (cs : List Char) : Option (Nat × ℤ) :=
  let intPart := cs.takeWhile Char.isDigit
  let rest := cs.dropWhile Char.isDigit
  match rest with
  | '.' :: rest2 =>
    let fracPart := rest2.takeWhile Char.isDigit
    let rest3 := rest2.dropWhile Char.isDigit
    if intPart.isEmpty && fracPart.isEmpty then none
    else (parseExpSuffix rest3).map (fun e =>
      (digitsVal (intPart ++ fracPart), e - (fracPart.length : ℤ)))
  | rest1 =>
    if intPart.isEmpty then none
    else (parseExpSuffix rest1).map (fun e => (digitsVal intPart, e))

/-- Models ECMAScript ToNumber on strings (`Number(s)` for a string `s`):
whitespace is trimmed; the empty remainder is 0; an unsigned hex, octal or
binary literal, or an optionally signed decimal literal or `Infinity`, is
its value; everything else is NaN. -/
def strToNumber (s : String) : JSNum :=
  let cs := charTrim s.toList
  match cs with
  | [] => .finite 0 0
  | '0' :: 'x' :: ds | '0' :: 'X' :: ds =>
    match baseVal 16 ds with
    | some n => mkFinite (n : ℤ) 0
    | none => .nan
  | '0' :: 'o' :: ds | '0' :: 'O' :: ds =>
    match baseVal 8 ds with
    | some n => mkFinite (n : ℤ) 0
    | none => .nan
  | '0' :: 'b' :: ds | '0' :: 'B' :: ds =>
    match baseVal 2 ds with
    | some n => mkFinite (n : ℤ) 0
    | none => .nan
  | _ =>
    let signBody : Bool × List Char :=
      match cs with
      | '+' :: r => (false, r)
      | '-' :: r => (true, r)
      | r => (false, r)
    let neg := signBody.1
    let body := signBody.2
    if body = "Infinity".toList then (if neg then .neginf else .inf)
    else
      match parseUnsignedDecimal body with
      | some p => mkFinite (if neg then -(p.1 : ℤ) else (p.1 : ℤ)) p.2
      | none => .nan

mutual
/-- ToNumber of an array goes through the string it joins to: a
multi-element array joins with commas and is therefore never numeric, the
empty array joins to the empty string and is 0, and a one-element array
coerces as its element renders. -/
def arrNum : List JSValue → JSNum
  | [] => .finite 0 0
  | [v] => elemNum v
  | _ => .nan
/-- ToNumber of the string a single array element renders to inside a
join: `null` and `undefined` render empty, numbers and strings round-trip,
booleans render as non-numeric words, nested arrays join recursively. -/
def elemNum : JSValue → JSNum
  | .null => .finite 0 0
  | .undefined => .finite 0 0
  | .num x => x
  | .str s => strToNumber s
  | .bool _ => .nan
  | .obj _ => .nan
  | .arr ws => arrNum ws
end

/-- Models ECMAScript ToNumber (`Number(v)`). -/
def toNumber : JSValue → JSNum
  | .num x => x
  | .null => .finite 0 0
  | .undefined => .nan
  | .bool b => .finite (if b then 1 else 0) 0
  | .str s => strToNumber s
  | .obj _ => .nan
  | .arr vs => arrNum vs

/-- The errors the handler body can raise, mirroring the JavaScript error
classes actually thrown: `parseError` is a SyntaxError from `JSON.parse`,
`typeError` is a TypeError from a property access or method call on an
unsuitable value, `errorThrow` is an explicit `throw new Error(msg)` or a
rejection from `post.save()`. -/
inductive JsError where
  | parseError
  | typeError (msg : String)
  | errorThrow (msg : String)
deriving DecidableEq, Repr

/-- Classification of a raised error under the error taxonomy of the
specification: structural failures of the feature collection (JSON parse
failures and TypeErrors from accessing `features` or a feature geometry)
are InvalidGeoJSON; the explicit Point-coordinate throw is not. -/
def JsError.isInvalidGeoJSON : JsError → Bool
  | .parseError => true
  | .typeError _ => true
  | .errorThrow _ => false

/-- Property read `v[k]`, raising the TypeError that JavaScript raises on
`null`/`undefined`; a missing key and every primitive give `undefined`. -/
def getProp (v : JSValue) (k : String) : Except JsError JSValue :=
  match v with
  | .null => .error (.typeError ("Cannot read properties of null (reading " ++ k ++ ")"))
  | .undefined => .error (.typeError ("Cannot read properties of undefined (reading " ++ k ++ ")"))
  | .obj fields => .ok ((fields.lookup k).getD .undefined)
  | _ => .ok .undefined

/-- Non-raising property read, used once the receiver is known not to be
`null`/`undefined`. -/
def propValue (v : JSValue) (k : String) : JSValue :=
  match v with
  | .obj fields => (fields.lookup k).getD .undefined
  | _ => .undefined

/-- Index read `v[i]`, raising TypeError on `null`/`undefined`; arrays
index positionally, strings index by character, objects look up the
decimal key, other primitives give `undefined`. -/
def indexRead (v : JSValue) (i : Nat) : Except JsError JSValue :=
  match v with
  | .null => .error (.typeError "Cannot read properties of null")
  | .undefined => .error (.typeError "Cannot read properties of undefined")
  | .arr vs => .ok (vs.getD i .undefined)
  | .str s =>
    .ok (match s.toList.get? i with
         | some c => .str (String.mk [c])
         | none => .undefined)
  | .obj fields => .ok ((fields.lookup (toString i)).getD .undefined)
  | _ => .ok .undefined

/-- One step of the `features.map` callback (index.ts lines 187-208):
destructures `feature.geometry` into `type` and `coordinates`; for
`type === "Point"` it coerces `coordinates[0]` and `coordinates[1]` with
`Number`, throws `Invalid Point coordinates` when either is NaN, and
returns the two-element numeric pair; every other type is forwarded as an
opaque pair. -/
def normalizeFeature (feature : JSValue) : Except JsError JSValue := do
  let geometry ← getProp feature "geometry"
  match geometry with
  | .null => .error (.typeError "Cannot destructure null")
  | .undefined => .error (.typeError "Cannot destructure undefined")
  | g =>
    let ty := propValue g "type"
    let coordinates := propValue g "coordinates"
    match ty with
    | .str "Point" =>
      let c0 ← indexRead coordinates 0
      let c1 ← indexRead coordinates 1
      let lng := toNumber c0
      let lat := toNumber c1
      if lng.isNaN || lat.isNaN then
        .error (.errorThrow "Invalid Point coordinates")
      else
        .ok (.obj [("type", .str "Point"), ("coordinates", .arr [.num lng, .num lat])])
    | _ => .ok (.obj [("type", ty), ("coordinates", coordinates)])

/-- The string-decoding step of the locations initializer (index.ts lines
181-185): a string field is run through `JSON.parse` (modelled by the
explicit `parse` argument; `none` is a SyntaxError), any other value is
used as is. -/
def decodeGeojson (parse : String → Option JSValue) (g : JSValue) : Except JsError JSValue :=
  match g with
  | .str s =>
    match parse s with
    | some v => .ok v
    | none => .error .parseError
  | v => .ok v

/-- The whole locations initializer (index.ts lines 180-209): decode, read
`features`, and map `normalizeFeature` over it; a non-array `features`
raises the TypeError that calling `.map` raises in JavaScript. -/
def computeLocations (parse : String → Option JSValue) (raw : JSValue) :
    Except JsError (List JSValue) := do
  let geojson ← decodeGeojson parse raw
  let features ← getProp geojson "features"
  match features with
  | .arr fs => fs.mapM normalizeFeature
  | .null => .error (.typeError "Cannot read properties of null (reading map)")
  | .undefined => .error (.typeError "Cannot read properties of undefined (reading map)")
  | _ => .error (.typeError "features.map is not a function")

/-- One uploaded file as multer-s3 presents it to the handler: the bucket
key it assigned, and the original name, declared MIME type and byte size
from the multipart part. -/
structure MulterFile where
  key : String
  originalname : String
  mimetype : String
  size : Nat
deriving DecidableEq, Repr

/-- One image metadata record as embedded in a Post. -/
structure ImageRec where
  imageKey : String
  originalName : String
  mimetype : String
  size : Nat
deriving DecidableEq, Repr

/-- The per-file record of the images mapping (index.ts lines 172-179). -/
def mkImage (f : MulterFile) : ImageRec :=
  { imageKey := f.key
    originalName := f.originalname
    mimetype := f.mimetype
    size := f.size }

/-- The multipart body fields the handler reads (`req.body`); a field
absent from the request is `undefined`. -/
structure ReqBody where
  title : JSValue
  description : JSValue
  geojson : JSValue
  userId : JSValue

/-- The unsaved Post document the handler constructs (index.ts lines
169-211). -/
structure PostDoc where
  title : JSValue
  description : JSValue
  images : List ImageRec
  locations : List JSValue
  user : JSValue

/-- The document `new Post(...)` builds from the request (index.ts lines
169-211): scalar fields forwarded as given, images mapped per file,
locations from the normalizer. -/
def mkPost (fs : List MulterFile) (body : ReqBody) (locs : List JSValue) : PostDoc :=
  { title := body.title
    description := body.description
    images := fs.map mkImage
    locations := locs
    user := body.userId }

/-- Mongoose validation of a required trimmed String path (model.ts:
`type: String, required: true, trim: true`): strings must be nonempty
after trimming, numbers and booleans cast to nonempty strings, `null` and
`undefined` fail the required check, arrays and objects fail the cast. -/
def requiredTrimmedString : JSValue → Bool
  | .str s => !(charTrim s.toList).isEmpty
  | .num _ => true
  | .bool _ => true
  | _ => false

/-- Mongoose cast plus required check for the `user` ObjectId path
(model.ts: `type: Schema.Types.ObjectId, required: true`): a 24-character
hex string casts; other shapes are rejected (the 12-byte buffer form is
not modelled). -/
def requiredObjectId : JSValue → Bool
  | .str s => s.toList.length = 24 && s.toList.all (fun c => (hexDigitVal c).isSome)
  | _ => false

/-- Mongoose validation of one entry of the `locations` array (model.ts
lines 208-221): the entry must cast to a subdocument, its `type` must be
a string of the enum `Point`/`LineString`/`Polygon` and is required, its
`coordinates` is Mixed but required (so neither absent nor null). -/
def locationOk (loc : JSValue) : Bool :=
  match loc with
  | .obj _ =>
    (match propValue loc "type" with
     | .str t => t = "Point" || t = "LineString" || t = "Polygon"
     | _ => false)
    &&
    (match propValue loc "coordinates" with
     | .undefined => false
     | .null => false
     | _ => true)
  | _ => false

/-- Document-level validation the store runs inside `post.save()`, read
off the Post schema (model.ts lines 183-233): required trimmed title and
description, a required `imageKey` per image, the `locations` entry
constraints, and a required castable `user` reference. -/
def validatePost (p : PostDoc) : Bool :=
  requiredTrimmedString p.title
  && requiredTrimmedString p.description
  && p.images.all (fun i => !i.imageKey.toList.isEmpty)
  && p.locations.all locationOk
  && requiredObjectId p.user

/-- Outcome of the document-store backend for the single insert of the
request, an oracle input of the model: on success the store assigns the
identifier and the two timestamps (model.ts `timestamps: true`). -/
inductive BackendResult where
  | ok (id : String) (createdAt updatedAt : Nat)
  | fail (msg : String)

/-- The saved Post document as `post` is after `await post.save()`:
the constructed document plus the server-assigned identifier and
timestamps. -/
structure SavedPost where
  _id : String
  title : JSValue
  description : JSValue
  images : List ImageRec
  locations : List JSValue
  user : JSValue
  createdAt : Nat
  updatedAt : Nat

/-- The saved document built from an unsaved one. -/
def savedOf (p : PostDoc) (id : String) (c u : Nat) : SavedPost :=
  { _id := id
    title := p.title
    description := p.description
    images := p.images
    locations := p.locations
    user := p.user
    createdAt := c
    updatedAt := u }

/-- Models `await post.save()`: schema validation first (a mongoose
ValidationError rejects the promise), then the backend insert; any
failure is a thrown error for the surrounding try. -/
def savePost (p : PostDoc) (backend : BackendResult) : Except JsError SavedPost :=
  if validatePost p then
    match backend with
    | .ok id c u => .ok (savedOf p id c u)
    | .fail msg => .error (.errorThrow msg)
  else .error (.errorThrow "Post validation failed")

/-- A response body: the error shape or the success shape of the handler. -/
inductive RespBody where
  | errorBody (error : String)
  | successBody (message : String) (post : SavedPost)

/-- An HTTP-equivalent response: status code and JSON body. -/
structure Response where
  status : Nat
  body : RespBody

/-- What one run of the handler produced: the response sent, and the Post
document persisted by the store, if any. -/
structure HandlerResult where
  response : Response
  saved : Option SavedPost

/-- The POST /upload/multiple/image handler body (index.ts lines
141-226). `files` is `req.files` as multer leaves it (`none` when the
middleware did not set it, `some fs` with the uploaded files otherwise —
an empty multipart upload yields `some []`). The guard answers 400; the
Post is then constructed (the locations initializer may throw), saved,
and answered with 201; the catch block maps every thrown error to the one
generic 500 response. -/
def handleUpload (parse : String → Option JSValue) (files : Option (List MulterFile))
    (body : ReqBody) (backend : BackendResult) : HandlerResult :=
  match files with
  | none => ⟨⟨400, .errorBody "No file uploaded"⟩, none⟩
  | some fs =>
    match computeLocations parse body.geojson with
    | .error _ => ⟨⟨500, .errorBody "Serving error during upload"⟩, none⟩
    | .ok locs =>
      match savePost (mkPost fs body locs) backend with
      | .error _ => ⟨⟨500, .errorBody "Serving error during upload"⟩, none⟩
      | .ok saved => ⟨⟨201, .successBody "Upload successful" saved⟩, some saved⟩

/-- A GeoJSON feature whose geometry is a Point with the two given
coordinate components. -/
def pointFeature (c0 c1 : JSValue) : JSValue :=
  .obj [("type", .str "Feature"),
        ("geometry", .obj [("type", .str "Point"), ("coordinates", .arr [c0, c1])]),
        ("properties", .obj [])]

/-- A GeoJSON feature collection with the given features. -/
def featureCollection (fs : List JSValue) : JSValue :=
  .obj [("type", .str "FeatureCollection"), ("features", .arr fs)]

/-- A request body with valid scalar fields and a one-Point feature
collection already decoded (scenario A of the specification, with string
coordinates). -/
def scenarioABody : ReqBody :=
  { title := .str "Forest Plot"
    description := .str "test"
    geojson := featureCollection [pointFeature (.str "88.3") (.str "22.5")]
    userId := .str "507f1f77bcf86cd799439011" }

/-- A sample uploaded file. -/
def fileA : MulterFile :=
  { key := "1712-a.png", originalname := "a.png", mimetype := "image/png", size := 123 }

/-- A second sample uploaded file. -/
def fileB : MulterFile :=
  { key := "1713-b.jpg", originalname := "b.jpg", mimetype := "image/jpeg", size := 456 }

/-- The features sequence of a decoded GeoJSON value, when it has one:
an object whose `features` field holds an array. Used to state what a
value lacking a features sequence is. -/
def featuresSeq : JSValue → Option (List JSValue)
  | .obj fields =>
    match (fields.lookup "features").getD .undefined with
    | .arr vs => some vs
    | _ => none
  | _ => none

/-- The structural constraint the specification states for one entry of a
stored Post locations array: a geometry kind among the three enumerated
ones and a present (neither absent nor null) coordinates value. -/
def goodLocation (loc : JSValue) : Prop :=
  (propValue loc "type" = .str "Point" ∨ propValue loc "type" = .str "LineString" ∨
   propValue loc "type" = .str "Polygon")
  ∧ propValue loc "coordinates" ≠ .undefined ∧ propValue loc "coordinates" ≠ .null

/-- The normalized location the scenario A feature produces. -/
def locA : JSValue :=
  .obj [("type", .str "Point"),
        ("coordinates", .arr [.num (.finite 883 (-1)), .num (.finite 225 (-1))])]

/-- A request body identical to scenario A except that `geojson` is a
string that does not parse as JSON. -/
def malformedBody : ReqBody :=
  { scenarioABody with geojson := .str "this is not json" }

/-- A request body identical to scenario A except that the required
`title` field is absent. -/
def missingTitleBody : ReqBody :=
  { scenarioABody with title := .undefined }

/-- A locations entry violating the schema constraints: a geometry kind
outside the enum. -/
def badLoc : JSValue :=
  .obj [("type", .str "Circle"), ("coordinates", .arr [])]

example : toNumber (.str "") = .finite 0 0 := by decide
example : toNumber .null = .finite 0 0 := by decide
example : toNumber (.bool true) = .finite 1 0 := by decide
example : toNumber (.arr []) = .finite 0 0 := by decide
example : toNumber (.str "Infinity") = .inf := by decide
example : toNumber (.str " -Infinity ") = .neginf := by decide
example : toNumber (.str "88.3") = .finite 883 (-1) := by decide
example : toNumber (.str "1e3") = .finite 1 3 := by decide
example : toNumber (.str "0x10") = .finite 16 0 := by decide
example : toNumber (.str "-2.50") = .finite (-25) (-1) := by decide
example : (toNumber (.str "abc")).isNaN = true := by decide
example : toNumber .undefined = .nan := by decide
example : toNumber (.arr [.arr [.str "5"]]) = .finite 5 0 := by decide

/-- C10: for Point coordinate components that are neither numbers nor
numeric strings — the empty string, null, a boolean true, an empty array —
the `Number` coercion yields a finite value (0, 0, 1 and 0 respectively),
so normalization succeeds with coordinates such as `[0, 0]` or `[1, 0]`
instead of failing with InvalidCoordinates. -/
theorem C10_nonfailing_coercions :
    toNumber (.str "") = .finite 0 0 ∧
    toNumber .null = .finite 0 0 ∧
    toNumber (.bool true) = .finite 1 0 ∧
    toNumber (.arr []) = .finite 0 0 ∧
    normalizeFeature (pointFeature (.str "") .null) =
      .ok (.obj [("type", .str "Point"),
                 ("coordinates", .arr [.num (.finite 0 0), .num (.finite 0 0)])]) ∧
    normalizeFeature (pointFeature (.bool true) (.arr [])) =
      .ok (.obj [("type", .str "Point"),
                 ("coordinates", .arr [.num (.finite 1 0), .num (.finite 0 0)])]) :=
  ⟨by decide, by decide, by decide, by decide, rfl, rfl⟩

/-- C4, the code at the failing input: a multipart request carrying zero
file parts reaches the handler with `req.files = []`, which passes the
`!req.files` guard, so instead of a 400 NoFilesProvided rejection the
handler builds a Post with an empty images list, saves it, and answers
201. -/
theorem C4_zero_files_accepted :
    (handleUpload (fun _ => none) (some []) scenarioABody (.ok "pid0" 11 12)).response.status
      = 201 ∧
    (handleUpload (fun _ => none) (some []) scenarioABody (.ok "pid0" 11 12)).saved.map
        (fun p => p.images)
      = some [] :=
  ⟨by decide, rfl⟩

/-- C1 counterexample: the string `Infinity` does not coerce to a finite
number, yet the normalizer accepts the Point feature carrying it — the
NaN check lets infinities through — so the claim that any component not
coercing to a finite number fails with InvalidCoordinates is false. -/
theorem C1_counterexample :
    toNumber (.str "Infinity") = .inf ∧
    normalizeFeature (pointFeature (.str "Infinity") (.str "0")) =
      .ok (.obj [("type", .str "Point"),
                 ("coordinates", .arr [.num .inf, .num (.finite 0 0)])]) :=
  ⟨by decide, rfl⟩

/-- C1 amended: for every feature whose geometry carries type `Point` and
an array of coordinates, both components are coerced with `Number`
(numeric strings accepted); normalization fails with the Invalid Point
coordinates error exactly when either component coerces to NaN (values
coercing to an infinity are accepted), and otherwise outputs the
2-element numeric pair `[lng, lat]` regardless of the numeric
representation of the input. -/
theorem C1_point_normalization (ffields gfields : List (String × JSValue))
    (cs : List JSValue)
    (hg : ffields.lookup "geometry" = some (.obj gfields))
    (ht : gfields.lookup "type" = some (.str "Point"))
    (hc : gfields.lookup "coordinates" = some (.arr cs)) :
    normalizeFeature (.obj ffields) =
      (let lng := toNumber (cs.getD 0 .undefined)
       let lat := toNumber (cs.getD 1 .undefined)
       if lng.isNaN || lat.isNaN then
         Except.error (.errorThrow "Invalid Point coordinates")
       else
         Except.ok (.obj [("type", .str "Point"),
                          ("coordinates", .arr [.num lng, .num lat])])) := by
  simp only [normalizeFeature, Bind.bind, Except.bind, getProp, hg, Option.getD_some, propValue,
    ht, hc, indexRead, List.getD]

/-- C1 witness: the amended statement evaluated on scenario A, whose
numeric-string coordinates coerce to the numeric pair. -/
theorem C1_point_normalization_witness :
    normalizeFeature (pointFeature (.str "88.3") (.str "22.5")) =
      .ok (.obj [("type", .str "Point"),
                 ("coordinates", .arr [.num (.finite 883 (-1)), .num (.finite 225 (-1))])]) :=
  (C1_point_normalization
    [("type", .str "Feature"),
     ("geometry", .obj [("type", .str "Point"), ("coordinates", .arr [.str "88.3", .str "22.5"])]),
     ("properties", .obj [])]
    [("type", .str "Point"), ("coordinates", .arr [.str "88.3", .str "22.5"])]
    [.str "88.3", .str "22.5"]
    rfl rfl rfl).trans (by rfl)

/-- C5: for every feature whose geometry carries a type other than
`Point` — LineString, Polygon or anything unrecognized — together with a
coordinates value, the normalizer does not reject the feature and
forwards the type and coordinates pair unchanged, with no coercion or
shape validation of the coordinates. -/
theorem C5_non_point_passthrough (ffields gfields : List (String × JSValue)) (t c : JSValue)
    (hg : ffields.lookup "geometry" = some (.obj gfields))
    (ht : gfields.lookup "type" = some t)
    (hc : gfields.lookup "coordinates" = some c)
    (hnp : t ≠ .str "Point") :
    normalizeFeature (.obj ffields) = .ok (.obj [("type", t), ("coordinates", c)]) := by
  simp only [normalizeFeature, Bind.bind, Except.bind, getProp, hg, Option.getD_some, propValue,
    ht, hc]
  all_goals split <;> simp_all

/-- C5 witness: a LineString feature with nested coordinates, one of which
is not even numeric, passes through unchanged. -/
theorem C5_non_point_passthrough_witness :
    normalizeFeature
      (.obj [("type", .str "Feature"),
             ("geometry", .obj [("type", .str "LineString"),
                                ("coordinates", .arr [.arr [.num (.finite 1 0), .num (.finite 2 0)],
                                                      .arr [.str "x", .null]])])]) =
      .ok (.obj [("type", .str "LineString"),
                 ("coordinates", .arr [.arr [.num (.finite 1 0), .num (.finite 2 0)],
                                       .arr [.str "x", .null]])]) :=
  C5_non_point_passthrough
    [("type", .str "Feature"),
     ("geometry", .obj [("type", .str "LineString"),
                        ("coordinates", .arr [.arr [.num (.finite 1 0), .num (.finite 2 0)],
                                              .arr [.str "x", .null]])])]
    [("type", .str "LineString"),
     ("coordinates", .arr [.arr [.num (.finite 1 0), .num (.finite 2 0)],
                           .arr [.str "x", .null]])]
    (.str "LineString")
    (.arr [.arr [.num (.finite 1 0), .num (.finite 2 0)], .arr [.str "x", .null]])
    rfl rfl rfl (by simp)

/-- C3: a geojson string that does not parse fails with the SyntaxError
of `JSON.parse`, classified InvalidGeoJSON; a decoded value lacking a
features sequence fails with an error classified InvalidGeoJSON; and
whenever normalization fails no Post document is persisted. -/
theorem C3_invalid_geojson :
    (∀ (parse : String → Option JSValue) (s : String), parse s = none →
       computeLocations parse (.str s) = .error .parseError ∧
       JsError.parseError.isInvalidGeoJSON = true)
    ∧ (∀ (parse : String → Option JSValue) (g d : JSValue),
        decodeGeojson parse g = .ok d → featuresSeq d = none →
        ∃ e, computeLocations parse g = .error e ∧ e.isInvalidGeoJSON = true)
    ∧ (∀ (parse : String → Option JSValue) (files : Option (List MulterFile))
        (body : ReqBody) (backend : BackendResult) (e : JsError),
        computeLocations parse body.geojson = .error e →
        (handleUpload parse files body backend).saved = none) := by
  refine ⟨?_, ?_, ?_⟩
  · intro parse s hp
    constructor
    · simp [computeLocations, decodeGeojson, hp, Bind.bind, Except.bind]
    · rfl
  · intro parse g d hd hf
    have hcl : computeLocations parse g =
        (do
          let features ← getProp d "features"
          match features with
          | .arr fs => fs.mapM normalizeFeature
          | .null => .error (.typeError "Cannot read properties of null (reading map)")
          | .undefined => .error (.typeError "Cannot read properties of undefined (reading map)")
          | _ => .error (.typeError "features.map is not a function")) := by
      simp only [computeLocations, hd, Bind.bind, Except.bind]
    cases d with
    | null =>
      exact ⟨.typeError "Cannot read properties of null (reading features)",
        by rw [hcl]; rfl, rfl⟩
    | undefined =>
      exact ⟨.typeError "Cannot read properties of undefined (reading features)",
        by rw [hcl]; rfl, rfl⟩
    | bool b =>
      exact ⟨.typeError "Cannot read properties of undefined (reading map)",
        by rw [hcl]; rfl, rfl⟩
    | num x =>
      exact ⟨.typeError "Cannot read properties of undefined (reading map)",
        by rw [hcl]; rfl, rfl⟩
    | str s =>
      exact ⟨.typeError "Cannot read properties of undefined (reading map)",
        by rw [hcl]; rfl, rfl⟩
    | arr vs =>
      exact ⟨.typeError "Cannot read properties of undefined (reading map)",
        by rw [hcl]; rfl, rfl⟩
    | obj fields =>
      simp only [featuresSeq] at hf
      simp only [hcl, getProp, Bind.bind, Except.bind]
      cases hv : (fields.lookup "features").getD .undefined with
      | arr vs => rw [hv] at hf; simp at hf
      | null =>
        exact ⟨.typeError "Cannot read properties of null (reading map)", rfl, rfl⟩
      | undefined =>
        exact ⟨.typeError "Cannot read properties of undefined (reading map)", rfl, rfl⟩
      | bool b => exact ⟨.typeError "features.map is not a function", rfl, rfl⟩
      | num x => exact ⟨.typeError "features.map is not a function", rfl, rfl⟩
      | str s => exact ⟨.typeError "features.map is not a function", rfl, rfl⟩
      | obj f2 => exact ⟨.typeError "features.map is not a function", rfl, rfl⟩
  · intro parse files body backend e he
    cases files with
    | none => rfl
    | some fs => simp [handleUpload, he]

/-- C3 witness: the three parts evaluated concretely — an unparseable
string, a decoded object without `features`, and a full handler run on
the malformed body that persists nothing. -/
theorem C3_invalid_geojson_witness :
    (computeLocations (fun _ => none) (.str "this is not json") = .error .parseError ∧
     JsError.parseError.isInvalidGeoJSON = true)
    ∧ (∃ e, computeLocations (fun _ => none) (.obj [("type", .str "FeatureCollection")])
        = .error e ∧ e.isInvalidGeoJSON = true)
    ∧ (handleUpload (fun _ => none) (some [fileA]) malformedBody (.ok "p" 1 2)).saved = none :=
  ⟨C3_invalid_geojson.1 (fun _ => none) "this is not json" rfl,
   C3_invalid_geojson.2.1 (fun _ => none) (.obj [("type", .str "FeatureCollection")])
     (.obj [("type", .str "FeatureCollection")]) rfl rfl,
   C3_invalid_geojson.2.2 (fun _ => none) (some [fileA]) malformedBody (.ok "p" 1 2)
     .parseError rfl⟩

/-- C2 counterexample: a request whose geojson is a string that does not
parse — a validation failure per the claim — is answered with status 500,
not 400, because the thrown SyntaxError lands in the generic catch. -/
theorem C2_counterexample :
    computeLocations (fun _ => none) malformedBody.geojson = .error .parseError ∧
    (handleUpload (fun _ => none) (some [fileA]) malformedBody (.ok "p" 1 2)).response.status
      = 500 ∧
    (handleUpload (fun _ => none) (some [fileA]) malformedBody (.ok "p" 1 2)).response.status
      ≠ 400 :=
  ⟨rfl, rfl, by decide⟩

/-- C2 amended: for requests that reach the handler with files present,
every validation failure inside the try block — malformed GeoJSON,
invalid Point coordinates (normalization error), or a missing required
scalar field (schema validation failure at save) — is answered with the
generic 500 response and persists nothing; only the missing `req.files`
guard answers 400. -/
theorem C2_validation_failures_500 :
    (∀ (parse : String → Option JSValue) (fs : List MulterFile) (body : ReqBody)
       (backend : BackendResult) (e : JsError),
       computeLocations parse body.geojson = .error e →
       handleUpload parse (some fs) body backend =
         ⟨⟨500, .errorBody "Serving error during upload"⟩, none⟩)
    ∧ (∀ (parse : String → Option JSValue) (fs : List MulterFile) (body : ReqBody)
       (backend : BackendResult) (locs : List JSValue),
       computeLocations parse body.geojson = .ok locs →
       validatePost (mkPost fs body locs) = false →
       handleUpload parse (some fs) body backend =
         ⟨⟨500, .errorBody "Serving error during upload"⟩, none⟩)
    ∧ (∀ (parse : String → Option JSValue) (body : ReqBody) (backend : BackendResult),
       handleUpload parse none body backend = ⟨⟨400, .errorBody "No file uploaded"⟩, none⟩) := by
  refine ⟨?_, ?_, ?_⟩
  · intro parse fs body backend e he
    simp [handleUpload, he]
  · intro parse fs body backend locs hl hv
    simp [handleUpload, hl, savePost, hv]
  · intro parse body backend
    rfl

/-- C2 witness: the amended statement evaluated on a malformed geojson
body and on a body missing its title — both answered with the generic 500
— and on an absent files value answered 400. -/
theorem C2_validation_failures_500_witness :
    handleUpload (fun _ => none) (some [fileA]) malformedBody (.ok "p" 1 2) =
      ⟨⟨500, .errorBody "Serving error during upload"⟩, none⟩
    ∧ handleUpload (fun _ => none) (some [fileA]) missingTitleBody (.ok "p" 1 2) =
      ⟨⟨500, .errorBody "Serving error during upload"⟩, none⟩
    ∧ handleUpload (fun _ => none) none scenarioABody (.ok "p" 1 2) =
      ⟨⟨400, .errorBody "No file uploaded"⟩, none⟩ :=
  ⟨C2_validation_failures_500.1 (fun _ => none) [fileA] malformedBody (.ok "p" 1 2)
     .parseError rfl,
   C2_validation_failures_500.2.1 (fun _ => none) [fileA] missingTitleBody (.ok "p" 1 2)
     [locA] rfl rfl,
   C2_validation_failures_500.2.2 (fun _ => none) scenarioABody (.ok "p" 1 2)⟩

/-- C6: whenever a run of the handler persists a Post, its images list is
exactly the per-file mapping of the uploaded files — one record per file,
in request order, carrying the storage key, original filename, declared
MIME type and byte size of its file. -/
theorem C6_images_per_file (parse : String → Option JSValue) (fs : List MulterFile)
    (body : ReqBody) (backend : BackendResult) (saved : SavedPost)
    (h : (handleUpload parse (some fs) body backend).saved = some saved) :
    saved.images = fs.map mkImage ∧
    saved.images.length = fs.length ∧
    (∀ (i : Nat) (f : MulterFile), fs[i]? = some f →
      saved.images[i]? =
        some { imageKey := f.key, originalName := f.originalname,
               mimetype := f.mimetype, size := f.size }) := by
  have himg : saved.images = fs.map mkImage := by
    cases hl : computeLocations parse body.geojson with
    | error e => simp [handleUpload, hl] at h
    | ok locs =>
      cases hs : savePost (mkPost fs body locs) backend with
      | error e => simp [handleUpload, hl, hs] at h
      | ok sp =>
        have hsp : sp.images = fs.map mkImage := by
          simp only [savePost] at hs
          cases hvp : validatePost (mkPost fs body locs) with
          | false => simp [hvp] at hs
          | true =>
            cases backend with
            | fail msg => simp [hvp] at hs
            | ok id c u =>
              simp only [hvp, if_true] at hs
              simp only [Except.ok.injEq] at hs
              rw [← hs]
              rfl
        simp only [handleUpload, hl, hs, Option.some.injEq] at h
        rw [← h]
        exact hsp
  refine ⟨himg, by rw [himg]; simp, ?_⟩
  intro i f hf
  rw [himg, List.getElem?_map, hf]
  rfl

/-- C6 witness: a successful two-file upload whose saved images list is
the two records in request order with the expected fields. -/
theorem C6_images_per_file_witness :
    (savedOf (mkPost [fileA, fileB] scenarioABody [locA]) "pid1" 3 4).images
      = [mkImage fileA, mkImage fileB]
    ∧ (savedOf (mkPost [fileA, fileB] scenarioABody [locA]) "pid1" 3 4).images[1]?
      = some { imageKey := "1713-b.jpg", originalName := "b.jpg",
               mimetype := "image/jpeg", size := 456 } := by
  have r := C6_images_per_file (fun _ => none) [fileA, fileB] scenarioABody (.ok "pid1" 3 4)
    (savedOf (mkPost [fileA, fileB] scenarioABody [locA]) "pid1" 3 4) rfl
  exact ⟨r.1, r.2.2 1 fileB rfl⟩

/-- C7: whenever normalization succeeds and the constructed Post passes
validation and the store insert succeeds, the handler responds 201 with
the body shape of message and post, where the post is the saved record
carrying the server-assigned identifier and timestamps. -/
theorem C7_success_201 (parse : String → Option JSValue) (fs : List MulterFile)
    (body : ReqBody) (id : String) (c u : Nat) (locs : List JSValue)
    (hl : computeLocations parse body.geojson = .ok locs)
    (hv : validatePost (mkPost fs body locs) = true) :
    handleUpload parse (some fs) body (.ok id c u) =
      ⟨⟨201, .successBody "Upload successful" (savedOf (mkPost fs body locs) id c u)⟩,
       some (savedOf (mkPost fs body locs) id c u)⟩
    ∧ (savedOf (mkPost fs body locs) id c u)._id = id
    ∧ (savedOf (mkPost fs body locs) id c u).createdAt = c
    ∧ (savedOf (mkPost fs body locs) id c u).updatedAt = u := by
  refine ⟨?_, rfl, rfl, rfl⟩
  simp [handleUpload, hl, savePost, hv]

/-- C7 witness: scenario A with one file and a succeeding store responds
201 with the saved record carrying identifier pid2 and timestamps 7, 8. -/
theorem C7_success_201_witness :
    handleUpload (fun _ => none) (some [fileA]) scenarioABody (.ok "pid2" 7 8) =
      ⟨⟨201, .successBody "Upload successful"
          (savedOf (mkPost [fileA] scenarioABody [locA]) "pid2" 7 8)⟩,
       some (savedOf (mkPost [fileA] scenarioABody [locA]) "pid2" 7 8)⟩
    ∧ (savedOf (mkPost [fileA] scenarioABody [locA]) "pid2" 7 8)._id = "pid2"
    ∧ (savedOf (mkPost [fileA] scenarioABody [locA]) "pid2" 7 8).createdAt = 7
    ∧ (savedOf (mkPost [fileA] scenarioABody [locA]) "pid2" 7 8).updatedAt = 8 :=
  C7_success_201 (fun _ => none) [fileA] scenarioABody "pid2" 7 8 [locA] rfl rfl

/-- C8: a Post record accepted by the schema validation of the store has,
in every entry of its locations array, a geometry type among Point,
LineString and Polygon and a present coordinates value; and a record with
an entry violating these constraints is rejected by the store validation
itself, independently of the handler. -/
theorem C8_store_location_constraints :
    (∀ (p : PostDoc) (loc : JSValue), validatePost p = true → loc ∈ p.locations →
      goodLocation loc)
    ∧ (∀ (p : PostDoc) (loc : JSValue), loc ∈ p.locations → ¬ goodLocation loc →
      validatePost p = false) := by
  have key : ∀ (loc : JSValue), locationOk loc = true → goodLocation loc := by
    intro loc hok
    cases loc with
    | obj fields =>
      simp only [locationOk, Bool.and_eq_true] at hok
      obtain ⟨h1, h2⟩ := hok
      constructor
      · cases htv : propValue (.obj fields) "type" with
        | str t =>
          simp only [htv, Bool.or_eq_true, decide_eq_true_eq] at h1
          rcases h1 with (h | h) | h <;> subst h <;> simp
        | null => simp [htv] at h1
        | undefined => simp [htv] at h1
        | bool b => simp [htv] at h1
        | num x => simp [htv] at h1
        | arr vs => simp [htv] at h1
        | obj f2 => simp [htv] at h1
      · cases hcv : propValue (.obj fields) "coordinates" with
        | undefined => simp [hcv] at h2
        | null => simp [hcv] at h2
        | bool b => exact ⟨by simp, by simp⟩
        | num x => exact ⟨by simp, by simp⟩
        | str s => exact ⟨by simp, by simp⟩
        | arr vs => exact ⟨by simp, by simp⟩
        | obj f2 => exact ⟨by simp, by simp⟩
    | null => simp [locationOk] at hok
    | undefined => simp [locationOk] at hok
    | bool b => simp [locationOk] at hok
    | num x => simp [locationOk] at hok
    | str s => simp [locationOk] at hok
    | arr vs => simp [locationOk] at hok
  have fwd : ∀ (p : PostDoc) (loc : JSValue), validatePost p = true → loc ∈ p.locations →
      goodLocation loc := by
    intro p loc hvp hm
    have hall : p.locations.all locationOk = true := by
      simp only [validatePost, Bool.and_eq_true] at hvp
      exact hvp.1.2
    exact key loc ((List.all_eq_true.mp hall) loc hm)
  refine ⟨fwd, ?_⟩
  intro p loc hm hbad
  cases hvp : validatePost p with
  | false => rfl
  | true => exact absurd (fwd p loc hvp hm) hbad

/-- C8 witness: the scenario A location entry of an accepted record
satisfies the constraints, and a record whose single entry carries the
out-of-enum kind Circle is rejected by the store validation. -/
theorem C8_store_location_constraints_witness :
    goodLocation locA ∧ validatePost (mkPost [fileA] scenarioABody [badLoc]) = false :=
  ⟨C8_store_location_constraints.1 (mkPost [fileA] scenarioABody [locA]) locA rfl
     (List.mem_singleton_self locA),
   C8_store_location_constraints.2 (mkPost [fileA] scenarioABody [badLoc]) badLoc
     (List.mem_singleton_self badLoc)
     (by
       intro hg
       rcases hg with ⟨h1, -, -⟩
       rcases h1 with h | h | h <;> simp [badLoc, propValue] at h)⟩

/-- C9: any two handler runs answered with status 500 — whatever the
internal cause, a thrown exception during normalization or a failed
persistence — carry the identical fixed generic body, which leaks no
detail of the cause. -/
theorem C9_generic_500_body (parse1 parse2 : String → Option JSValue)
    (files1 files2 : Option (List MulterFile)) (body1 body2 : ReqBody)
    (backend1 backend2 : BackendResult)
    (h1 : (handleUpload parse1 files1 body1 backend1).response.status = 500)
    (h2 : (handleUpload parse2 files2 body2 backend2).response.status = 500) :
    (handleUpload parse1 files1 body1 backend1).response.body
      = (handleUpload parse2 files2 body2 backend2).response.body
    ∧ (handleUpload parse1 files1 body1 backend1).response.body
      = .errorBody "Serving error during upload" := by
  have key : ∀ (parse : String → Option JSValue) (files : Option (List MulterFile))
      (body : ReqBody) (backend : BackendResult),
      (handleUpload parse files body backend).response.status = 500 →
      (handleUpload parse files body backend).response.body
        = .errorBody "Serving error during upload" := by
    intro parse files body backend h
    cases files with
    | none => simp [handleUpload] at h
    | some fs =>
      cases hl : computeLocations parse body.geojson with
      | error e => simp [handleUpload, hl]
      | ok locs =>
        cases hs : savePost (mkPost fs body locs) backend with
        | error e => simp [handleUpload, hl, hs]
        | ok sp => simp [handleUpload, hl, hs] at h
  exact ⟨(key _ _ _ _ h1).trans (key _ _ _ _ h2).symm, key _ _ _ _ h1⟩

/-- C9 witness: one run failing on unparseable geojson and one failing on
a rejected store insert both answer 500 with equal bodies. -/
theorem C9_generic_500_body_witness :
    (handleUpload (fun _ => none) (some [fileA]) malformedBody (.ok "x" 0 0)).response.status
      = 500
    ∧ (handleUpload (fun _ => none) (some [fileA]) scenarioABody
        (.fail "mongo connection lost")).response.status = 500
    ∧ (handleUpload (fun _ => none) (some [fileA]) malformedBody (.ok "x" 0 0)).response.body
      = (handleUpload (fun _ => none) (some [fileA]) scenarioABody
          (.fail "mongo connection lost")).response.body :=
  ⟨rfl, rfl,
   (C9_generic_500_body (fun _ => none) (fun _ => none) (some [fileA]) (some [fileA])
     malformedBody scenarioABody (.ok "x" 0 0) (.fail "mongo connection lost") rfl rfl).1⟩
